import Mathlib

/-!
Verification development for the OpenLLM model-handle layer
(`src/openllm/_llm.py`).

The Python module is shallowly embedded: each function relevant to the
specification claims is transcribed into an executable Lean definition.
Effects (filesystem probes, network fetches of model configs, device
discovery) are threaded through an explicit, immutable `Env` record of
resolution functions, so the embedded code is pure and its claims are
provable.  Helper utilities that live in `openllm.utils` (not part of the
provided sources) appear as `Env` fields or small definitions whose doc
comments say what they model.
-/

namespace OpenLLM

/-- Quantisation methods accepted by `LLM.from_pretrained` (the Python
literal type `t.Literal["int8", "int4", "gptq"]`). -/
inductive Quantize where
  | int8
  | int4
  | gptq
deriving DecidableEq, Repr

/-- Serialisation formats (`t.Literal["safetensors", "legacy"]`). -/
inductive Serialisation where
  | safetensors
  | legacy
deriving DecidableEq, Repr

/-- Backend implementations (`LiteralRuntime`), inferred from the LLM
subclass name by `LLM._infer_implementation_from_name`. -/
inductive Runtime where
  | pt
  | tf
  | flax
  | vllm
deriving DecidableEq, Repr

/-- String form of a runtime, as interpolated into tags. -/
def Runtime.str : Runtime → String
  | .pt => "pt"
  | .tf => "tf"
  | .flax => "flax"
  | .vllm => "vllm"

/-- A quantisation-config object (`transformers.BitsAndBytesConfig` or
`auto_gptq.BaseQuantizeConfig`); its contents are irrelevant to the claims,
so it is kept as a tagged blob.  In Python such an object is always truthy. -/
structure QConfig where
  data : String
deriving DecidableEq, Repr

/-- The attr tuple created by `codegen.make_attr_tuple_class("AdaptersTuple",
["adapter_id", "name", "config"])`.  `name` is `Option String` because the
CLI/SDK can supply `None`; `config` is the parsed adapter config blob. -/
structure AdaptersTuple where
  adapter_id : String
  name : Option String
  config : String
deriving DecidableEq, Repr

/-- `AdaptersMapping`: a dict from adapter family (`AdapterType`, the
lower-cased `peft_type`) to the tuple of resolved `AdaptersTuple`s, in
insertion order, as built by `resolve_peft_config_type`. -/
abbrev AdaptersMapping := List (String × List AdaptersTuple)

/-- A peft config object produced by a `FineTuneConfig.to_peft_config` call;
kept as a blob supplied by the environment. -/
abbrev PeftConfig := String

/-- `ResolvedAdaptersMapping`: family to adapter-name to
`(peft_config, adapter_id)`, as built by `LLM._transpose_adapter_mapping`. -/
abbrev ResolvedAdaptersMapping := List (String × List (String × (PeftConfig × String)))

/-- Ambient effects used by the embedded code.  Each field models one
external lookup performed by the Python module: filesystem probes
(`openllm.utils.validate_is_path` / `resolve_filepath` /
`generate_hash_from_file`), container detection (`openllm.utils.in_docker`
plus the `BENTO_PATH` variable), the `OPENLLM_USE_LOCAL_LATEST` switch and
the local model store, the remote hub fetch of a pretrained config
(`transformers.AutoConfig.from_pretrained`, yielding an optional commit
hash or failing), GPU discovery (`openllm.utils.device_count`), peft
availability, quantisation-config inference
(`openllm._quantisation.infer_quantisation_config`), adapter-config
fetches (`hf_hub_download` of `adapter_config.json`, yielding the raw
`peft_type` and the config blob, or nothing when unavailable), and the
fine-tune strategy objects from `openllm._configuration` used by
`_transpose_adapter_mapping`. -/
structure Env where
  validate_is_path : String → Bool
  resolve_filepath : String → String
  in_docker : Bool
  bento_path : Option String
  use_local_latest : Bool
  local_latest_tag : String → Option String → Except String String
  fs_parts : String → List String
  fetch_commit_hash : String → Bool → String → Except String (Option String)
  generate_hash_from_file : String → String
  device_count : Nat
  is_peft_available : Bool
  infer_quantisation_config : Quantize → QConfig
  adapter_config : String → Option (String × String)
  default_ft_peft_config : String → String → Bool → PeftConfig
  named_ft_peft_config : String → String → Bool → PeftConfig

/-- Class-level configuration consulted by `from_pretrained`: the
environment-variable override and class default for `model_id`
(`cfg_cls.__openllm_env__["model_id_value"]`, `__openllm_default_id__`),
the environment quantize value, and `__openllm_trust_remote_code__`. -/
structure ClassConfig where
  env_model_id : Option String
  default_id : Option String
  env_quantize : Option Quantize
  trust_remote_code : Bool

/-- Modelled from the spec: `openllm.utils.first_not_none` (not among the
provided sources) realises the precedence rule "explicit call argument >
environment-sourced default > backend/class default" by returning its
first non-`None` argument. -/
def first_not_none (a b : Option α) : Option α :=
  match a with
  | some x => some x
  | none => b

/-- Python truthiness of an optional string (`None` and `""` are falsy). -/
def optStrTruthy : Option String → Bool
  | none => false
  | some s => !s.isEmpty

/-- Python truthiness of an optional list/dict (`None` and empty are falsy). -/
def optListTruthy : Option (List α) → Bool
  | none => false
  | some l => !l.isEmpty

/-- Helper for splitting a character list on a separator character. -/
def splitOnCharAux (c : Char) : List Char → List Char → List (List Char)
  | [], cur => [cur.reverse]
  | d :: ds, cur =>
    if d = c then cur.reverse :: splitOnCharAux c ds []
    else splitOnCharAux c ds (d :: cur)

/-- Split a string on every occurrence of a character, keeping empty
segments — the behaviour of Python `str.split(sep)` / `str.rsplit(sep)`
with a single-character separator and no maxsplit, as used by
`model_id.rsplit(":")` in `_generate_tag_str`. -/
def splitOnChar (c : Char) (s : String) : List String :=
  (splitOnCharAux c s.data []).map String.mk

/-- Lower-case a string (Python `str.lower`, applied to generated tags via
the `@apply(str.lower)` decorator). -/
def lowerString (s : String) : String :=
  String.mk (s.data.map Char.toLower)

/-- Collapse every maximal run of non-alphanumeric characters into a single
dash: the effect of `re.sub("[^a-zA-Z0-9]+", "-", name)`.  The boolean
records whether the previous character was part of such a run. -/
def squashNonAlnum : List Char → Bool → List Char
  | [], _ => []
  | c :: cs, prevDash =>
    if c.isAlphanum then c :: squashNonAlnum cs false
    else if prevDash then squashNonAlnum cs true
    else '-' :: squashNonAlnum cs true

/-- Modelled from the spec: POSIX `os.path.basename`, the final path
component after the last slash. -/
def basename (p : String) : String :=
  (splitOnChar '/' p).getLastD ""

/-- Transcription of `normalise_model_name` (line 130): the basename of the
resolved path when the name is a path, otherwise the dash-squashed name. -/
def normalise_model_name (env : Env) (name : String) : String :=
  if env.validate_is_path name then basename (env.resolve_filepath name)
  else String.mk (squashNonAlnum name.data false)

/-- A `bentoml.Tag`: name plus optional version. -/
structure Tag where
  name : String
  version : Option String
deriving DecidableEq, Repr

/-- Modelled from the spec: the external `bentoml.Tag.from_taglike` parses
`"name:version"`, splitting on the first colon; a taglike without a colon
has no version. -/
def Tag.fromTaglike (s : String) : Tag :=
  match splitOnChar ':' s with
  | [] => ⟨s, none⟩
  | [n] => ⟨n, none⟩
  | n :: rest => ⟨n, some (String.intercalate ":" rest)⟩

/-- Transcription of the body of `LLM._generate_tag_str` (lines 620-655),
before the `@apply(str.lower)` and `@functools.lru_cache` decorators are
applied.  Returns the generated tag string together with the list of
warnings logged, or the message of the exception raised.  The docker
special case joins the last two path parts of `model_id`; the embedded
revision branch returns early with the revision from the rsplit; the
remaining branches consult the local-latest switch, the filesystem, or the
remote hub for a commit hash. -/
def _generate_tag_str (env : Env) (impl : Runtime) (trc : Bool)
    (model_id : String) (model_version : Option String) :
    Except String (String × List String) :=
  if env.in_docker ∧ env.bento_path.isSome then
    .ok (String.intercalate ":"
      ((env.fs_parts model_id).drop ((env.fs_parts model_id).length - 2)), [])
  else
    let model_name := normalise_model_name env model_id
    let parts := splitOnChar ':' model_id
    let model_id₂ := parts.headD ""
    let maybe_revision := parts.tail
    if maybe_revision.isEmpty then
      let tag_name := impl.str ++ "-" ++ model_name
      if env.use_local_latest then
        (env.local_latest_tag tag_name model_version).map (fun t => (t, []))
      else if env.validate_is_path model_id₂ then
        let mv := model_version.getD (env.generate_hash_from_file model_id₂)
        .ok (tag_name ++ ":" ++ mv, [])
      else
        match env.fetch_commit_hash model_id₂ trc (model_version.getD "main") with
        | .error e => .error e
        | .ok none =>
          .error ("Internal errors when parsing config for pretrained "
            ++ model_id₂ ++ " (commit_hash not found)")
        | .ok (some h) => .ok (tag_name ++ ":" ++ h, [])
    else
      let warns := match model_version with
        | some v =>
          ["revision is specified within model_id (" ++ maybe_revision.headD ""
            ++ "), and model_version=" ++ v ++ " will be ignored."]
        | none => []
      .ok (impl.str ++ "-" ++ model_name ++ ":" ++ maybe_revision.headD "", warns)

/-- Cache of the `functools.lru_cache` wrapper on `_generate_tag_str`,
keyed by the argument pair; only successful (non-raising) calls are
cached, matching `lru_cache` semantics. -/
abbrev TagCache := List ((String × Option String) × String)

/-- Exact-key lookup in the lru_cache table. -/
def cacheLookup (cache : TagCache) (k : String × Option String) : Option String :=
  match cache with
  | [] => none
  | (k₂, v) :: rest => if k₂ = k then some v else cacheLookup rest k

/-- The memoized, lower-cased `_generate_tag_str` as it is actually
invoked: consults the cache first; on a miss, runs the body once (the
returned counter is the number of body executions this call performed),
lower-cases the result and caches it.  Exceptions propagate uncached. -/
def _generate_tag_str_memo (env : Env) (impl : Runtime) (trc : Bool)
    (cache : TagCache) (model_id : String) (model_version : Option String) :
    Except String String × TagCache × Nat :=
  match cacheLookup cache (model_id, model_version) with
  | some t => (.ok t, cache, 0)
  | none =>
    match _generate_tag_str env impl trc model_id model_version with
    | .ok (t, _) =>
      let tl := lowerString t
      (.ok tl, ((model_id, model_version), tl) :: cache, 1)
    | .error e => (.error e, cache, 1)

/-- Transcription of `LLM.generate_tag` (line 658) on top of the memoized
tag-string generator: parse the generated string as a `bentoml.Tag`. -/
def generate_tag_memo (env : Env) (impl : Runtime) (trc : Bool)
    (cache : TagCache) (model_id : String) (model_version : Option String) :
    Except String Tag × TagCache × Nat :=
  match _generate_tag_str_memo env impl trc cache model_id model_version with
  | (r, c, n) => (r.map Tag.fromTaglike, c, n)

/-- `LLM.generate_tag` with the cache behaviour elided (the cache only
affects how often the body runs, not the value; see
`generate_tag_memoized`).  Used by the `from_pretrained` embedding. -/
def generate_tag (env : Env) (impl : Runtime) (trc : Bool)
    (model_id : String) (model_version : Option String) : Except String Tag :=
  (_generate_tag_str env impl trc model_id model_version).map
    (fun p => Tag.fromTaglike (lowerString p.1))

/-- Reserved attribute names on `LLM` instances (line 167). -/
def _reserved_namespace : List String :=
  ["config_class", "model", "tokenizer", "import_kwargs"]

/-- Append an adapter tuple under its family key, preserving the dict
insertion order of `resolve_peft_config_type` (a fresh family key is
appended at the end; an existing family keeps its position and its tuple
list grows at the end, mirroring `resolved[_peft_type] += (tuple,)`). -/
def insertAdapter (m : AdaptersMapping) (pt : String) (tup : AdaptersTuple) :
    AdaptersMapping :=
  match m with
  | [] => [(pt, [tup])]
  | (k, ts) :: rest =>
    if k = pt then (k, ts ++ [tup]) :: rest
    else (k, ts) :: insertAdapter rest pt tup

/-- Loop of `resolve_peft_config_type` (lines 144-165): iterate over the
`adapter_map` items carrying the `_has_set_default` flag and the mapping
built so far.  A `None` name is promoted to `"default"` the first time and
raises afterwards; then the adapter config is fetched (raising when it
cannot be found) and the tuple is grouped under its lower-cased
`peft_type`. -/
def resolve_peft_config_type_aux (env : Env) :
    List (String × Option String) → Bool → AdaptersMapping →
    Except String AdaptersMapping
  | [], _, acc => .ok acc
  | (path_or_adapter_id, name) :: rest, has_set_default, acc =>
    match name with
    | none =>
      if has_set_default then .error "Only one adapter can be set as default."
      else
        match env.adapter_config path_or_adapter_id with
        | none =>
          .error ("Cant find adapter_config.json at " ++ path_or_adapter_id)
        | some pc =>
          resolve_peft_config_type_aux env rest true
            (insertAdapter acc (lowerString pc.1)
              ⟨path_or_adapter_id, some "default", pc.2⟩)
    | some n =>
      match env.adapter_config path_or_adapter_id with
      | none =>
        .error ("Cant find adapter_config.json at " ++ path_or_adapter_id)
      | some pc =>
        resolve_peft_config_type_aux env rest has_set_default
          (insertAdapter acc (lowerString pc.1) ⟨path_or_adapter_id, some n, pc.2⟩)

/-- Transcription of `resolve_peft_config_type` (line 136). -/
def resolve_peft_config_type (env : Env)
    (adapter_map : List (String × Option String)) : Except String AdaptersMapping :=
  resolve_peft_config_type_aux env adapter_map false []

/-- All adapter tuples stored in a mapping, across families. -/
def allTuples (m : AdaptersMapping) : List AdaptersTuple :=
  (m.map Prod.snd).flatten

/-- The accumulator `resolve_peft_config_type_aux` builds while walking a
run of entries whose names are all set and whose configs all resolve
(no flag change, no error possible on such a run). -/
def accAfter (env : Env) : List (String × Option String) → AdaptersMapping → AdaptersMapping
  | [], acc => acc
  | (pid, name) :: rest, acc =>
    match env.adapter_config pid with
    | none => acc
    | some pc =>
      accAfter env rest (insertAdapter acc (lowerString pc.1) ⟨pid, name, pc.2⟩)

/-- Errors raised by `from_pretrained`, tagged by the Python exception
class (`ValueError`, `RuntimeError`, `OpenLLMException`). -/
inductive FPError where
  | valueError (msg : String)
  | runtimeError (msg : String)
  | openllmError (msg : String)
deriving DecidableEq, Repr

/-- Message of the quantize mutual-exclusivity `ValueError` (line 594). -/
def mutually_exclusive_quantize_msg : String :=
  "quantization_config and quantize are mutually exclusive. Either customise your quantization_config or use the quantize argument."

/-- Message of the adapter mutual-exclusivity `ValueError` (line 600). -/
def mutually_exclusive_adapter_msg : String :=
  "adapter_map and adapter_id are mutually exclusive. Either provide a adapter_map or use the combination of adapter_id/adapter_name arguments."

/-- The constructed `LLM` handle: the fields of the attrs class that
`from_pretrained` fills in through `cls(...)` (line 615).  The loaded
model, tokenizer and adapter caches start out `None` and live in
`LLMState`. -/
structure Handle where
  model_id : String
  quantization_config : Option QConfig
  quantize_method : Option Quantize
  serialisation_format : Serialisation
  adapters_mapping : Option AdaptersMapping
  model_version : String
  tag : Tag
deriving DecidableEq, Repr

/-- Serialisation forcing of lines 596-597: gptq forces safetensors,
otherwise a vllm implementation forces legacy, otherwise the caller value
stands. -/
def forced_serialisation (impl : Runtime) (quantize : Option Quantize)
    (serialisation : Serialisation) : Serialisation :=
  if quantize = some .gptq then .safetensors
  else if impl = .vllm then .legacy
  else serialisation

/-- Transcription of `LLM.from_pretrained` (lines 526-618): resolve the
model id, merge the quantize value with its environment default, enforce
the two mutual-exclusivity checks with Python truthiness, infer a
quantisation config when only `quantize` is given, force the serialisation
format, promote `adapter_id`/`adapter_name` to a single-entry map, check
peft availability, generate the tag (any exception inside the `try` block,
including a missing tag version, is re-raised as `OpenLLMException`),
resolve the adapter map and construct the handle.  The `llm_config`
construction and the kwarg plumbing to the backend are external to the
claims and elided.  The transcription is split in two:
`from_pretrained_tail` covers lines 602-618 (everything after the
mutual-exclusivity checks and option merging, which `from_pretrained`
performs before calling it). -/
def from_pretrained_tail (env : Env) (impl : Runtime) (trc : Bool)
    (model_id : String) (model_version : Option String)
    (quantization_config : Option QConfig) (quantize : Option Quantize)
    (serialisation : Serialisation)
    (adapter_map : Option (List (String × Option String))) : Except FPError Handle :=
  if adapter_map.isSome && !env.is_peft_available then
    .error (.runtimeError "LoRA adapter requires peft to be installed.")
  else
    match generate_tag env impl trc model_id model_version with
    | .error e => .error (.openllmError ("Failed to generate a valid tag: " ++ e))
    | .ok tag =>
      match tag.version with
      | none =>
        .error (.openllmError
          "Failed to generate a valid tag: Failed to resolve the correct model version")
      | some v =>
        match adapter_map with
        | none =>
          .ok ⟨model_id, quantization_config, quantize, serialisation, none, v, tag⟩
        | some am =>
          match resolve_peft_config_type env am with
          | .error e => .error (.valueError e)
          | .ok resolved =>
            .ok ⟨model_id, quantization_config, quantize, serialisation,
              some resolved, v, tag⟩

/-- Head of the `LLM.from_pretrained` transcription (lines 587-601):
model-id resolution, quantize merging, the two mutual-exclusivity checks
with Python truthiness, quantisation-config inference, serialisation
forcing and `adapter_id` promotion, before handing over to
`from_pretrained_tail`.  The Python local rebindings (`quantize = ...`,
`serialisation = ...`, `adapter_map = ...`) are pure, so they are inlined
at their use sites instead of let-bound. -/
def from_pretrained (env : Env) (impl : Runtime) (cfg : ClassConfig)
    (model_id : Option String) (model_version : Option String)
    (quantize : Option Quantize)
    (adapter_id : Option String) (adapter_name : Option String)
    (adapter_map : Option (List (String × Option String)))
    (quantization_config : Option QConfig)
    (serialisation : Serialisation) : Except FPError Handle :=
  match first_not_none (first_not_none model_id cfg.env_model_id) cfg.default_id with
  | none => .error (.runtimeError "Failed to resolve a valid model_id.")
  | some mid₀ =>
    if quantization_config.isSome && (first_not_none quantize cfg.env_quantize).isSome then
      .error (.valueError mutually_exclusive_quantize_msg)
    else if optListTruthy adapter_map && optStrTruthy adapter_id then
      .error (.valueError mutually_exclusive_adapter_msg)
    else
      from_pretrained_tail env impl cfg.trust_remote_code
        (if env.validate_is_path mid₀ then env.resolve_filepath mid₀ else mid₀)
        model_version
        (match quantization_config, first_not_none quantize cfg.env_quantize with
          | none, some q => some (env.infer_quantisation_config q)
          | qc, _ => qc)
        (first_not_none quantize cfg.env_quantize)
        (forced_serialisation impl (first_not_none quantize cfg.env_quantize) serialisation)
        (match adapter_map, adapter_id with
          | none, some aid => some [(aid, adapter_name)]
          | am, _ => am)

/-- Mutable runtime slots of a live `LLM` instance, over an abstract model
object type `M`: the `requires_gpu` flag of its config, the lazily loaded
model reference `__llm_model__`, the raw `_adapters_mapping` and the
cached resolved mapping `__llm_adapter_map__`. -/
structure LLMState (M : Type) where
  requires_gpu : Bool
  llm_model : Option M
  adapters_mapping : Option AdaptersMapping
  llm_adapter_map : Option ResolvedAdaptersMapping

/-- Error raised by the `.model` property when a GPU is required. -/
inductive ModelError where
  | gpuNotAvailable (msg : String)
deriving DecidableEq, Repr

/-- Transcription of the `LLM.model` property (lines 807-813): check the
GPU requirement against the visible device count; on the first access run
`load_model` and store the result; afterwards return the stored object.
The returned `Nat` counts how many times `load_model` ran during this
access. -/
def LLM.model (env : Env) (load_model : LLMState M → M) (s : LLMState M) :
    Except ModelError (M × LLMState M × Nat) :=
  if s.requires_gpu ∧ env.device_count < 1 then
    .error (.gpuNotAvailable "only supports running with GPU (None available).")
  else
    match s.llm_model with
    | some m => .ok (m, s, 0)
    | none =>
      let m := load_model s
      .ok (m, { s with llm_model := some m }, 1)

/-- Python truthiness of an adapter name (`not adapter.name` in line 837
is true for `None` and for the empty string). -/
def truthyName : Option String → Bool
  | none => false
  | some s => !s.isEmpty

/-- Python truthiness of the optional `_adapters_mapping` dict as used by
`if not self._adapters_mapping` (line 860): `None` and the empty dict are
falsy. -/
def optAdaptersTruthy : Option AdaptersMapping → Bool
  | none => false
  | some l => !l.isEmpty

/-- Assoc-list update mirroring Python dict assignment `d[k] = v`: an
existing key keeps its position, a fresh key is appended. -/
def updateAssoc (l : List (String × β)) (k : String) (v : β) : List (String × β) :=
  match l with
  | [] => [(k, v)]
  | (k₂, v₂) :: rest =>
    if k₂ = k then (k, v) :: rest else (k₂, v₂) :: updateAssoc rest k v

/-- Inner loop of `_transpose_adapter_mapping` (lines 836-843) over one
family: thread the `_converted_first_none` flag, raise on a falsy name
once the flag is set, promote a `None` name to `"default"`, and build the
per-family name map; the `"default"` entry is specialised through the
family default fine-tune strategy, other entries through an
adapter-supplied `FineTuneConfig`. -/
def transposeFam (env : Env) (fam : String) (inference_mode : Bool) :
    List AdaptersTuple → Bool → List (String × (PeftConfig × String)) →
    Except String (Bool × List (String × (PeftConfig × String)))
  | [], flag, acc => .ok (flag, acc)
  | ad :: rest, flag, acc =>
    if !truthyName ad.name && flag then
      .error ("LLM doesnt know how to resolve adapter_name None mapping: "
        ++ ad.adapter_id)
    else
      let flagName : Bool × String := match ad.name with
        | none => (true, "default")
        | some n => (flag, n)
      let peft_config :=
        if flagName.2 = "default" then
          env.default_ft_peft_config fam ad.config inference_mode
        else env.named_ft_peft_config fam ad.config inference_mode
      transposeFam env fam inference_mode rest flagName.1
        (updateAssoc acc flagName.2 (peft_config, ad.adapter_id))

/-- Outer loop of `_transpose_adapter_mapping` (line 834) over the
families, threading `_converted_first_none` across families. -/
def transposeBuildAux (env : Env) (inference_mode : Bool) :
    AdaptersMapping → Bool → ResolvedAdaptersMapping →
    Except String ResolvedAdaptersMapping
  | [], _, acc => .ok acc
  | (fam, tuples) :: rest, flag, acc =>
    match transposeFam env fam inference_mode tuples flag [] with
    | .error e => .error e
    | .ok (flag₂, famMap) =>
      transposeBuildAux env inference_mode rest flag₂ (updateAssoc acc fam famMap)

/-- The cache-free body of `_transpose_adapter_mapping`. -/
def transposeBuild (env : Env) (am : AdaptersMapping) (inference_mode : Bool) :
    Except String ResolvedAdaptersMapping :=
  transposeBuildAux env inference_mode am false []

/-- Transcription of `LLM._transpose_adapter_mapping` (lines 825-845):
raise when no mapping is set, serve the cached resolution when allowed,
otherwise rebuild and optionally fill the cache. -/
def transpose_adapter_mapping (env : Env) (s : LLMState M)
    (inference_mode : Bool) (use_cache : Bool) :
    Except String (ResolvedAdaptersMapping × LLMState M) :=
  match s.adapters_mapping with
  | none => .error "LoRA mapping is not set up correctly."
  | some am =>
    match s.llm_adapter_map with
    | some cached =>
      if use_cache then .ok (cached, s)
      else
        match transposeBuild env am inference_mode with
        | .error e => .error e
        | .ok adapter_map => .ok (adapter_map, s)
    | none =>
      match transposeBuild env am inference_mode with
      | .error e => .error e
      | .ok adapter_map =>
        if use_cache then .ok (adapter_map, { s with llm_adapter_map := some adapter_map })
        else .ok (adapter_map, s)

/-- The `load_adapters` argument of `apply_adapter`
(`t.Literal["all"] | list[str] | None`). -/
inductive LoadAdapters where
  | nothing
  | all
  | explicitList (names : List String)

/-- Transcription of `LLM.apply_adapter` (lines 855-881).  The
`@requires_dependencies("peft", extra="fine-tune")` decorator on line 855
is a call-time guard that raises a missing-dependency error before the
body runs when peft is not installed; it is checked first.  The next
three branches are the exact source checks: unloaded model, falsy
adapters mapping, already-wrapped `peft.PeftModel`.  The composition tail
calls into the external peft library, abstracted by the `isPeft`,
`peft_wrap`, `add_adapter` and `load_one_adapter` parameters: wrap with
the `"default"` entry (raising when it is absent, as
`_wrap_default_peft_model` does), `add_adapter` the remaining names, then
eagerly load the requested adapter weights. -/
def apply_adapter (env : Env) (isPeft : M → Bool)
    (peft_wrap : M → PeftConfig → String → Bool → M)
    (add_adapter : M → String → PeftConfig → M)
    (load_one_adapter : M → String → String → PeftConfig → Bool → M)
    (s : LLMState M) (inference_mode : Bool) (adapter_type : String)
    (load_adapters : LoadAdapters) (use_cache : Bool) :
    Except String (M × LLMState M) :=
  if !env.is_peft_available then
    .error "peft is required to use this functionality. Make sure to install OpenLLM with the fine-tune extra."
  else
  match s.llm_model with
  | none => .error "Error: Model is not loaded correctly"
  | some m =>
    if !optAdaptersTruthy s.adapters_mapping then .ok (m, s)
    else if isPeft m then .ok (m, s)
    else
      match transpose_adapter_mapping env s inference_mode use_cache with
      | .error e => .error e
      | .ok (mapping, s₂) =>
        match mapping.lookup adapter_type with
        | none => .error ("Given adapter type " ++ adapter_type ++ " is not supported.")
        | some adapter_mapping =>
          match adapter_mapping.lookup "default" with
          | none =>
            .error "There is no default mapping. Please check the adapter mapping."
          | some dflt =>
            let rest := adapter_mapping.filter (fun p => p.1 ≠ "default")
            let wrapped := peft_wrap m dflt.1 dflt.2 inference_mode
            let wrapped₂ :=
              if rest.length > 0 then
                let added := rest.foldl (fun acc p => add_adapter acc p.1 p.2.1) wrapped
                match load_adapters with
                | .nothing => added
                | .all =>
                  rest.foldl
                    (fun acc p => load_one_adapter acc p.2.2 p.1 p.2.1 inference_mode) added
                | .explicitList names =>
                  names.foldl
                    (fun acc n =>
                      match rest.lookup n with
                      | some pc => load_one_adapter acc pc.2 n pc.1 inference_mode
                      | none => acc) added
              else wrapped
            .ok (wrapped₂, { s₂ with llm_model := some wrapped₂ })

/-- Transcription of `LLM.__setattr__` (lines 767-769) over an explicit
attribute store: a reserved name raises `ForbiddenAttributeError` before
any mutation; any other name is written through `super().__setattr__`.
The result pairs the outcome with the (possibly updated) store. -/
def LLM.setattr (attrs : List (String × α)) (name : String) (value : α) :
    Except String Unit × List (String × α) :=
  if name ∈ _reserved_namespace then
    (.error (name ++ " should not be set during runtime as these value will be reflected during runtime. Instead, you can create a custom LLM subclass."),
      attrs)
  else (.ok (), updateAssoc attrs name value)

/-- The backend-supplied pieces of the three-stage dispatch pipeline, over
an abstract kwargs-dict type `α` and result type `β`. -/
structure LLMImpl (α β : Type) where
  sanitize_parameters : String → α → String × α × α
  generate : String → α → β
  postprocess_generate : String → β → α → β

/-- Default `LLMInterface.sanitize_parameters` (lines 212-221): identity
echo-through of the prompt and attrs. -/
def default_sanitize_parameters (prompt : String) (attrs : α) : String × α × α :=
  (prompt, attrs, attrs)

/-- Default `LLMInterface.postprocess_generate` (lines 222-229): a simple
echo of the generation result. -/
def default_postprocess_generate (_prompt : String) (generation_result : β)
    (_attrs : α) : β :=
  generation_result

/-- Transcription of `LLM.__call__` (lines 952-967): sanitize, generate
with the sanitized prompt and generate kwargs, postprocess the result. -/
def LLM.call (impl : LLMImpl α β) (prompt : String) (attrs : α) : β :=
  let sanitized := impl.sanitize_parameters prompt attrs
  impl.postprocess_generate sanitized.1
    (impl.generate sanitized.1 sanitized.2.1) sanitized.2.2

/-- A concrete resolution environment used to evaluate the embedded code
on closed inputs: nothing is a local path, the process is not inside a
container, the hub resolves every commit hash to `"abc123"`, no GPU is
visible, peft is installed, and every adapter id resolves to a LoRA
config. -/
def hubEnv : Env where
  validate_is_path := fun _ => false
  resolve_filepath := fun s => s
  in_docker := false
  bento_path := none
  use_local_latest := false
  local_latest_tag := fun _ _ => .error "model not found in local store"
  fs_parts := fun _ => []
  fetch_commit_hash := fun _ _ _ => .ok (some "abc123")
  generate_hash_from_file := fun _ => "filehash"
  device_count := 0
  is_peft_available := true
  infer_quantisation_config := fun _ => ⟨"qc"⟩
  adapter_config := fun _ => some ("LORA", "cfg")
  default_ft_peft_config := fun _ _ _ => "default-peft-config"
  named_ft_peft_config := fun _ _ _ => "named-peft-config"

/-- A class config with no environment overrides and no class default id. -/
def hubCfg : ClassConfig := ⟨none, none, none, false⟩

/-- Variant of `hubEnv` where adapter id `"a"` belongs to the LoRA family
and every other adapter id to the IA3 family. -/
def twoFamilyEnv : Env :=
  { hubEnv with
    adapter_config := fun pid =>
      if pid = "a" then some ("LORA", "cfga") else some ("IA3", "cfgb") }

/-- C4: the synchronous call `handle(prompt, **kwargs)` equals
`postprocess_generate(p2, generate(p2, **g), **pp)` where `(p2, g, pp)` is
`sanitize_parameters(prompt, **kwargs)`; the default `sanitize_parameters`
is the identity echo-through `(prompt, attrs, attrs)`, the default
`postprocess_generate` returns the generation result unchanged, and hence
a backend overriding neither defaults collapses the pipeline to its bare
`generate`. -/
theorem call_pipeline_default_identity (α β : Type) (impl : LLMImpl α β)
    (prompt : String) (attrs : α) (g : String → α → β) (res : β) :
    LLM.call impl prompt attrs
      = (let sanitized := impl.sanitize_parameters prompt attrs
         impl.postprocess_generate sanitized.1
           (impl.generate sanitized.1 sanitized.2.1) sanitized.2.2)
    ∧ default_sanitize_parameters prompt attrs = (prompt, attrs, attrs)
    ∧ default_postprocess_generate prompt res attrs = res
    ∧ LLM.call ⟨default_sanitize_parameters, g, default_postprocess_generate⟩ prompt attrs
        = g prompt attrs :=
  ⟨rfl, rfl, rfl, rfl⟩

/-- C7: on a handle whose GPU requirement is satisfied, the first access
to `.model` runs `load_model` exactly once and stores the result, and any
access on a handle that already holds a stored model returns that
identical object with zero further `load_model` runs and no state
change. -/
theorem model_lazy_load_idempotent (M : Type) (env : Env)
    (load_model : LLMState M → M) (s : LLMState M)
    (hgpu : ¬(s.requires_gpu ∧ env.device_count < 1)) (hfirst : s.llm_model = none) :
    LLM.model env load_model s
      = .ok (load_model s, { s with llm_model := some (load_model s) }, 1)
    ∧ ∀ (s₂ : LLMState M) (m : M), s₂.llm_model = some m →
        ¬(s₂.requires_gpu ∧ env.device_count < 1) →
        LLM.model env load_model s₂ = .ok (m, s₂, 0) := by
  constructor
  · unfold LLM.model
    rw [if_neg hgpu, hfirst]
  · intro s₂ m hm hgpu₂
    unfold LLM.model
    rw [if_neg hgpu₂, hm]

/-- C7 witness: a CPU handle loads the string `"weights"` once on first
access and returns the stored object with no reload on the second. -/
theorem model_lazy_load_idempotent_witness :
    LLM.model hubEnv (fun _ => "weights") ⟨false, none, none, none⟩
      = .ok ("weights", ⟨false, some "weights", none, none⟩, 1)
    ∧ LLM.model hubEnv (fun _ => "weights") ⟨false, some "weights", none, none⟩
      = .ok ("weights", ⟨false, some "weights", none, none⟩, 0) := by
  have h := model_lazy_load_idempotent String hubEnv (fun _ => "weights")
    ⟨false, none, none, none⟩ (by simp) rfl
  exact ⟨h.1, h.2 ⟨false, some "weights", none, none⟩ "weights" rfl (by simp)⟩

/-- C9: when the config requires a GPU and the visible device count is
zero, every access to `.model` raises `GpuNotAvailableError` immediately,
with no weight load and no CPU fallback, regardless of the stored
state. -/
theorem model_requires_gpu_unavailable (M : Type) (env : Env)
    (load_model : LLMState M → M) (s : LLMState M)
    (hreq : s.requires_gpu = true) (hdev : env.device_count = 0) :
    LLM.model env load_model s
      = .error (.gpuNotAvailable "only supports running with GPU (None available).") := by
  unfold LLM.model
  rw [if_pos ⟨hreq, by omega⟩]

/-- C9 witness: a GPU-requiring handle in the zero-device environment
fails with the capability error. -/
theorem model_requires_gpu_unavailable_witness :
    LLM.model hubEnv (fun _ => "weights") ⟨true, (none : Option String), none, none⟩
      = .error (.gpuNotAvailable "only supports running with GPU (None available).") :=
  model_requires_gpu_unavailable String hubEnv (fun _ => "weights")
    ⟨true, none, none, none⟩ rfl rfl

/-- C8: in an environment with the peft dependency installed (the
call-time guard of line 855 passes), `apply_adapter` is idempotent — with
a loaded model object, when the adapters mapping is empty or absent, or
when the model object is already a `peft.PeftModel`, it returns the
existing model object and leaves the handle state unchanged. -/
theorem apply_adapter_idempotent (M : Type) (env : Env) (isPeft : M → Bool)
    (peft_wrap : M → PeftConfig → String → Bool → M)
    (add_adapter : M → String → PeftConfig → M)
    (load_one_adapter : M → String → String → PeftConfig → Bool → M)
    (s : LLMState M) (m : M) (inference_mode : Bool) (adapter_type : String)
    (load_adapters : LoadAdapters) (use_cache : Bool)
    (hpeft : env.is_peft_available = true)
    (hm : s.llm_model = some m)
    (h : isPeft m = true ∨ optAdaptersTruthy s.adapters_mapping = false) :
    apply_adapter env isPeft peft_wrap add_adapter load_one_adapter s
      inference_mode adapter_type load_adapters use_cache = .ok (m, s) := by
  unfold apply_adapter
  rw [hpeft, hm]
  rcases h with h | h
  · by_cases ht : optAdaptersTruthy s.adapters_mapping
    · simp [ht, h]
    · simp [ht]
  · simp [h]

/-- C8 witness: in the peft-installed environment, a handle with a loaded
base model and no adapters mapping gets its model back unchanged from
`apply_adapter`. -/
theorem apply_adapter_idempotent_witness :
    apply_adapter hubEnv (fun _ => false) (fun m _ _ _ => m) (fun m _ _ => m)
      (fun m _ _ _ _ => m) ⟨false, some "base", none, none⟩ true "lora" .nothing true
      = .ok ("base", ⟨false, some "base", none, none⟩) :=
  apply_adapter_idempotent String hubEnv (fun _ => false) (fun m _ _ _ => m)
    (fun m _ _ => m) (fun m _ _ _ _ => m) ⟨false, some "base", none, none⟩ "base"
    true "lora" .nothing true rfl rfl (Or.inr rfl)

/-- C10: assigning a reserved attribute (`config_class`, `model`,
`tokenizer`, `import_kwargs`) raises `ForbiddenAttributeError` and leaves
the attribute store unchanged; assigning any other name succeeds and the
store afterwards holds the new value. -/
theorem setattr_reserved_forbidden (α : Type) (attrs : List (String × α))
    (name : String) (value : α) :
    (name ∈ _reserved_namespace →
      LLM.setattr attrs name value
        = (.error (name ++ " should not be set during runtime as these value will be reflected during runtime. Instead, you can create a custom LLM subclass."),
          attrs))
    ∧ (name ∉ _reserved_namespace →
      LLM.setattr attrs name value = (.ok (), updateAssoc attrs name value)
        ∧ (updateAssoc attrs name value).lookup name = some value) := by
  constructor
  · intro h
    unfold LLM.setattr
    rw [if_pos h]
  · intro h
    refine ⟨by unfold LLM.setattr; rw [if_neg h], ?_⟩
    induction attrs with
    | nil => simp [updateAssoc, List.lookup]
    | cons kv rest ih =>
      obtain ⟨k, w⟩ := kv
      by_cases hk : k = name
      · simp [updateAssoc, hk, List.lookup]
      · have hbeq : (name == k) = false := beq_eq_false_iff_ne.mpr (Ne.symm hk)
        simp only [updateAssoc, if_neg hk, List.lookup, hbeq]
        exact ih

/-- C10 witness: setting `"model"` on a store raises and keeps the store;
setting `"device"` succeeds and is observable. -/
theorem setattr_reserved_forbidden_witness :
    LLM.setattr [("x", "0")] "model" "1"
      = (.error ("model" ++ " should not be set during runtime as these value will be reflected during runtime. Instead, you can create a custom LLM subclass."),
        [("x", "0")])
    ∧ LLM.setattr [("x", "0")] "device" "1" = (.ok (), updateAssoc [("x", "0")] "device" "1")
    ∧ (updateAssoc [("x", "0")] "device" "1").lookup "device" = some "1" :=
  ⟨(setattr_reserved_forbidden String [("x", "0")] "model" "1").1 (by decide),
    ((setattr_reserved_forbidden String [("x", "0")] "device" "1").2 (by decide)).1,
    ((setattr_reserved_forbidden String [("x", "0")] "device" "1").2 (by decide)).2⟩

/-- C6: outside the docker bypass, when the model id embeds a revision
(the rsplit on `":"` yields a name and a revision), `_generate_tag_str`
uses the embedded revision as the tag version and ignores the
`model_version` argument, returning normally with the derived key
`"{backend}-{normalised model id}:{revision}"`; a warning (not an error)
is emitted exactly when a `model_version` was also supplied. -/
theorem tag_embedded_revision_priority (env : Env) (impl : Runtime) (trc : Bool)
    (model_id : String) (model_version : Option String) (nm rev : String)
    (hdocker : env.in_docker = false)
    (hsplit : splitOnChar ':' model_id = [nm, rev]) :
    _generate_tag_str env impl trc model_id model_version
      = .ok (impl.str ++ "-" ++ normalise_model_name env model_id ++ ":" ++ rev,
          match model_version with
          | some v =>
            ["revision is specified within model_id (" ++ rev
              ++ "), and model_version=" ++ v ++ " will be ignored."]
          | none => []) := by
  unfold _generate_tag_str
  rw [hdocker, hsplit]
  cases model_version <;> simp

/-- C6 witness: the hub id `"facebook/opt-125m:v1"` with an explicit
`model_version` resolves to the key built from the dash-normalised full id
and the embedded revision `v1`, and only warns about the ignored
argument. -/
theorem tag_embedded_revision_priority_witness :
    _generate_tag_str hubEnv .pt false "facebook/opt-125m:v1" (some "ignored")
      = .ok ("pt-facebook-opt-125m-v1:v1",
          ["revision is specified within model_id (v1), and model_version=ignored will be ignored."]) := by
  rw [tag_embedded_revision_priority hubEnv .pt false "facebook/opt-125m:v1"
    (some "ignored") "facebook/opt-125m" "v1" rfl (by decide)]
  rfl

/-- C3: for a fixed class, environment and `(model_id, model_version)`
input, two successive calls to the memoized `generate_tag` return equal
Tags, and the underlying resolution body of `_generate_tag_str` runs at
most once across both calls (given that the first call returns a Tag
rather than raising). -/
theorem generate_tag_deterministic_memoized (env : Env) (impl : Runtime)
    (trc : Bool) (cache : TagCache) (model_id : String)
    (model_version : Option String)
    (hok : (generate_tag_memo env impl trc cache model_id model_version).1.isOk = true) :
    (generate_tag_memo env impl trc cache model_id model_version).1
      = (generate_tag_memo env impl trc
          (generate_tag_memo env impl trc cache model_id model_version).2.1
          model_id model_version).1
    ∧ (generate_tag_memo env impl trc cache model_id model_version).2.2
      + (generate_tag_memo env impl trc
          (generate_tag_memo env impl trc cache model_id model_version).2.1
          model_id model_version).2.2 ≤ 1 := by
  unfold generate_tag_memo _generate_tag_str_memo
  cases hl : cacheLookup cache (model_id, model_version) with
  | some t => simp [hl]
  | none =>
    cases hb : _generate_tag_str env impl trc model_id model_version with
    | ok p =>
      simp [hl, hb, cacheLookup]
    | error e =>
      exfalso
      unfold generate_tag_memo _generate_tag_str_memo at hok
      rw [hl, hb] at hok
      simp [Except.isOk, Except.toBool, Except.map] at hok

/-- C3 witness: resolving `"demo"` against the concrete hub environment
from an empty cache succeeds, the two calls agree, and the body runs once
in total. -/
theorem generate_tag_deterministic_memoized_witness :
    (generate_tag_memo hubEnv .pt false [] "demo" none).1.isOk = true
    ∧ (generate_tag_memo hubEnv .pt false [] "demo" none).1
      = (generate_tag_memo hubEnv .pt false
          (generate_tag_memo hubEnv .pt false [] "demo" none).2.1 "demo" none).1
    ∧ (generate_tag_memo hubEnv .pt false [] "demo" none).2.2
      + (generate_tag_memo hubEnv .pt false
          (generate_tag_memo hubEnv .pt false [] "demo" none).2.1 "demo" none).2.2 ≤ 1 :=
  ⟨by rfl,
    (generate_tag_deterministic_memoized hubEnv .pt false [] "demo" none (by rfl)).1,
    (generate_tag_deterministic_memoized hubEnv .pt false [] "demo" none (by rfl)).2⟩

/-- C1 counterexample: an empty `adapter_map` dict passed together with a
set `adapter_id` is both non-None, yet `from_pretrained` raises nothing —
the Python truthiness test `adapter_map and adapter_id` lets the empty
dict through — and a handle is constructed. -/
theorem from_pretrained_empty_adapter_map_accepted :
    (from_pretrained hubEnv .pt hubCfg (some "demo") none none (some "x") none
      (some []) none .safetensors).isOk = true := by rfl

/-- C1 amended: with a resolvable model id, setting both
`quantization_config` and (the environment-merged) `quantize` raises the
quantize-conflict `ValueError` naming both options; and when that check
passes, setting both a truthy (non-empty) `adapter_map` and a truthy
(non-empty) `adapter_id` raises the adapter-conflict `ValueError` naming
both options.  In either case no handle is constructed. -/
theorem from_pretrained_mutual_exclusivity (env : Env) (impl : Runtime)
    (cfg : ClassConfig) (model_id model_version : Option String)
    (quantize : Option Quantize) (adapter_id adapter_name : Option String)
    (adapter_map : Option (List (String × Option String)))
    (quantization_config : Option QConfig) (serialisation : Serialisation)
    (hmid : (first_not_none (first_not_none model_id cfg.env_model_id)
      cfg.default_id).isSome = true) :
    (quantization_config.isSome = true →
      (first_not_none quantize cfg.env_quantize).isSome = true →
      from_pretrained env impl cfg model_id model_version quantize adapter_id
        adapter_name adapter_map quantization_config serialisation
        = .error (.valueError mutually_exclusive_quantize_msg))
    ∧ ((quantization_config.isSome
          && (first_not_none quantize cfg.env_quantize).isSome) = false →
      optListTruthy adapter_map = true → optStrTruthy adapter_id = true →
      from_pretrained env impl cfg model_id model_version quantize adapter_id
        adapter_name adapter_map quantization_config serialisation
        = .error (.valueError mutually_exclusive_adapter_msg)) := by
  obtain ⟨mid₀, hmid₀⟩ := Option.isSome_iff_exists.mp hmid
  constructor
  · intro h1 h2
    unfold from_pretrained
    rw [hmid₀]
    simp [h1, h2]
  · intro h1 h2 h3
    unfold from_pretrained
    rw [hmid₀]
    simp [h1, h2, h3]

/-- C1 witness: a `BitsAndBytesConfig`-style blob together with
`quantize=int8` raises the quantize conflict, and a one-entry adapter map
together with `adapter_id` raises the adapter conflict. -/
theorem from_pretrained_mutual_exclusivity_witness :
    from_pretrained hubEnv .pt hubCfg (some "demo") none (some .int8) none none
      none (some ⟨"qc"⟩) .safetensors
      = .error (.valueError mutually_exclusive_quantize_msg)
    ∧ from_pretrained hubEnv .pt hubCfg (some "demo") none none (some "adapter")
      none (some [("path", none)]) none .safetensors
      = .error (.valueError mutually_exclusive_adapter_msg) :=
  ⟨(from_pretrained_mutual_exclusivity hubEnv .pt hubCfg (some "demo") none
      (some .int8) none none none (some ⟨"qc"⟩) .safetensors rfl).1 rfl rfl,
    (from_pretrained_mutual_exclusivity hubEnv .pt hubCfg (some "demo") none none
      (some "adapter") none (some [("path", none)]) none .safetensors rfl).2
      rfl rfl rfl⟩

/-- C5 counterexample: a vllm-backed class with `quantize="gptq"` ends up
with the safetensors format, not the legacy format — the `elif` in lines
596-597 means the gptq branch shadows the vllm branch. -/
theorem from_pretrained_vllm_gptq_safetensors :
    (from_pretrained hubEnv .vllm hubCfg (some "demo") none (some .gptq) none none
      none none .legacy).map (fun h => h.serialisation_format)
      = .ok .safetensors := by rfl

/-- Inversion helper: whatever handle `from_pretrained_tail` returns
carries exactly the serialisation format it was handed. -/
lemma from_pretrained_tail_serialisation (env : Env) (impl : Runtime) (trc : Bool)
    (model_id : String) (model_version : Option String)
    (quantization_config : Option QConfig) (quantize : Option Quantize)
    (serialisation : Serialisation)
    (adapter_map : Option (List (String × Option String))) (h : Handle)
    (hok : from_pretrained_tail env impl trc model_id model_version
      quantization_config quantize serialisation adapter_map = .ok h) :
    h.serialisation_format = serialisation := by
  unfold from_pretrained_tail at hok
  split at hok
  · exact Except.noConfusion hok
  · split at hok
    · exact Except.noConfusion hok
    · split at hok
      · exact Except.noConfusion hok
      · split at hok
        · rw [← Except.ok.inj hok]
        · split at hok
          · exact Except.noConfusion hok
          · rw [← Except.ok.inj hok]

/-- C5 amended: whenever `from_pretrained` returns a handle, its
serialisation format is `forced_serialisation` of the merged quantize
value — safetensors whenever quantize is gptq (for any backend), legacy
whenever the backend is vllm and quantize is not gptq, and the caller
value otherwise. -/
theorem from_pretrained_serialisation_forced (env : Env) (impl : Runtime)
    (cfg : ClassConfig) (model_id model_version : Option String)
    (quantize : Option Quantize) (adapter_id adapter_name : Option String)
    (adapter_map : Option (List (String × Option String)))
    (quantization_config : Option QConfig) (serialisation : Serialisation)
    (h : Handle)
    (hok : from_pretrained env impl cfg model_id model_version quantize adapter_id
      adapter_name adapter_map quantization_config serialisation = .ok h) :
    h.serialisation_format
      = forced_serialisation impl (first_not_none quantize cfg.env_quantize)
          serialisation
    ∧ (first_not_none quantize cfg.env_quantize = some .gptq →
        h.serialisation_format = .safetensors)
    ∧ (impl = .vllm → first_not_none quantize cfg.env_quantize ≠ some .gptq →
        h.serialisation_format = .legacy) := by
  have hser : h.serialisation_format
      = forced_serialisation impl (first_not_none quantize cfg.env_quantize)
          serialisation := by
    unfold from_pretrained at hok
    split at hok
    · exact Except.noConfusion hok
    · split at hok
      · exact Except.noConfusion hok
      · split at hok
        · exact Except.noConfusion hok
        · exact from_pretrained_tail_serialisation _ _ _ _ _ _ _ _ _ _ hok
  refine ⟨hser, fun hq => ?_, fun hv hq => ?_⟩
  · rw [hser]
    unfold forced_serialisation
    rw [if_pos hq]
  · rw [hser]
    unfold forced_serialisation
    rw [if_neg hq, if_pos hv]

/-- C5 witness: the concrete vllm + gptq construction returns the handle
whose serialisation format the amended theorem forces to safetensors. -/
theorem from_pretrained_serialisation_forced_witness :
    (Handle.mk "demo" (some ⟨"qc"⟩) (some .gptq) .safetensors none "abc123"
      ⟨"vllm-demo", some "abc123"⟩).serialisation_format = .safetensors :=
  (from_pretrained_serialisation_forced hubEnv .vllm hubCfg (some "demo") none
    (some .gptq) none none none none .legacy
    (Handle.mk "demo" (some ⟨"qc"⟩) (some .gptq) .safetensors none "abc123"
      ⟨"vllm-demo", some "abc123"⟩) (by rfl)).2.1 rfl

/-- On a run of entries with set names and resolvable configs, the
resolution loop neither errors nor touches the default flag: it just
accumulates via `accAfter`. -/
lemma resolve_aux_all_named (env : Env) (l : List (String × Option String)) :
    ∀ (rest : List (String × Option String)) (flag : Bool) (acc : AdaptersMapping),
      (∀ p ∈ l, p.2.isSome = true) →
      (∀ p ∈ l, (env.adapter_config p.1).isSome = true) →
      resolve_peft_config_type_aux env (l ++ rest) flag acc
        = resolve_peft_config_type_aux env rest flag (accAfter env l acc) := by
  induction l with
  | nil => intro rest flag acc _ _; rfl
  | cons p l ih =>
    intro rest flag acc hname hconf
    obtain ⟨pid, nm⟩ := p
    obtain ⟨n, hn⟩ := Option.isSome_iff_exists.mp
      (hname (pid, nm) (List.mem_cons_self _ _))
    obtain ⟨pc, hpc⟩ := Option.isSome_iff_exists.mp
      (hconf (pid, nm) (List.mem_cons_self _ _))
    subst hn
    rw [List.cons_append]
    show resolve_peft_config_type_aux env ((pid, some n) :: (l ++ rest)) flag acc = _
    simp only [resolve_peft_config_type_aux, hpc, accAfter]
    exact ih rest flag _ (fun q hq => hname q (List.mem_cons_of_mem _ hq))
      (fun q hq => hconf q (List.mem_cons_of_mem _ hq))

/-- Membership in the flattened tuples after an `insertAdapter`. -/
lemma mem_allTuples_insertAdapter (m : AdaptersMapping) (pt : String)
    (tup t : AdaptersTuple) :
    t ∈ allTuples (insertAdapter m pt tup) ↔ t = tup ∨ t ∈ allTuples m := by
  induction m with
  | nil => simp [insertAdapter, allTuples]
  | cons kv rest ih =>
    obtain ⟨k, ts⟩ := kv
    by_cases hk : k = pt
    · simp only [insertAdapter, if_pos hk, allTuples, List.map_cons, List.flatten_cons,
        List.mem_append, List.mem_singleton]
      tauto
    · simp only [insertAdapter, if_neg hk, allTuples, List.map_cons, List.flatten_cons,
        List.mem_append] at ih ⊢
      tauto

/-- Tuples already accumulated survive an `accAfter` walk. -/
lemma mem_allTuples_accAfter (env : Env) (l : List (String × Option String)) :
    ∀ (acc : AdaptersMapping) (t : AdaptersTuple),
      t ∈ allTuples acc → t ∈ allTuples (accAfter env l acc) := by
  induction l with
  | nil => intro acc t h; exact h
  | cons p rest ih =>
    intro acc t h
    obtain ⟨pid, nm⟩ := p
    show t ∈ allTuples (accAfter env ((pid, nm) :: rest) acc)
    rw [accAfter]
    cases hpc : env.adapter_config pid with
    | none => exact h
    | some pc =>
      exact ih _ _ ((mem_allTuples_insertAdapter _ _ _ _).mpr (Or.inr h))

/-- C2 counterexample: two adapter specs with null names that live in two
different families (`"a"` is LoRA, `"b"` is IA3) are not independently
promoted — resolution raises the single-default `ValueError`, because the
`_has_set_default` flag is global across the whole adapter map, not
per-family. -/
theorem resolve_two_null_distinct_families_error :
    resolve_peft_config_type twoFamilyEnv [("a", none), ("b", none)]
      = .error "Only one adapter can be set as default."
    ∧ twoFamilyEnv.adapter_config "a" = some ("LORA", "cfga")
    ∧ twoFamilyEnv.adapter_config "b" = some ("IA3", "cfgb") :=
  ⟨by rfl, by rfl, by rfl⟩

/-- C2 amended: at most one adapter spec in the entire adapter map — all
families combined — may have a null name.  The first null-named spec is
promoted to the literal name `"default"`; any later null-named spec makes
resolution raise the validation error, regardless of which family either
spec belongs to.  The same map-global flag governs
`_transpose_adapter_mapping`: null names in two different families of an
adapters mapping also raise there. -/
theorem resolve_peft_default_uniqueness (env : Env)
    (pre mid post : List (String × Option String)) (aid bid : String)
    (inference_mode : Bool)
    (hpre : ∀ p ∈ pre, p.2.isSome = true)
    (hpreC : ∀ p ∈ pre, (env.adapter_config p.1).isSome = true)
    (hmid : ∀ p ∈ mid, p.2.isSome = true)
    (hmidC : ∀ p ∈ mid, (env.adapter_config p.1).isSome = true)
    (haid : (env.adapter_config aid).isSome = true) :
    resolve_peft_config_type env (pre ++ (aid, none) :: (mid ++ (bid, none) :: post))
      = .error "Only one adapter can be set as default."
    ∧ ((∀ p ∈ post, p.2.isSome = true) →
      (∀ p ∈ post, (env.adapter_config p.1).isSome = true) →
      ∃ r, resolve_peft_config_type env (pre ++ (aid, none) :: (mid ++ post)) = .ok r
        ∧ ∃ cfg, AdaptersTuple.mk aid (some "default") cfg ∈ allTuples r)
    ∧ (∀ (fam₁ fam₂ : String) (t₁ t₂ : AdaptersTuple), t₁.name = none → t₂.name = none →
      transposeBuild env [(fam₁, [t₁]), (fam₂, [t₂])] inference_mode
        = .error ("LLM doesnt know how to resolve adapter_name None mapping: "
            ++ t₂.adapter_id)) := by
  obtain ⟨pc, hpc⟩ := Option.isSome_iff_exists.mp haid
  refine ⟨?_, ?_, ?_⟩
  · unfold resolve_peft_config_type
    rw [resolve_aux_all_named env pre _ false [] hpre hpreC]
    simp only [resolve_peft_config_type_aux, hpc, Bool.false_eq_true, if_false]
    rw [resolve_aux_all_named env mid _ true _ hmid hmidC]
    simp [resolve_peft_config_type_aux]
  · intro hpost hpostC
    refine ⟨accAfter env (mid ++ post)
      (insertAdapter (accAfter env pre []) (lowerString pc.1)
        ⟨aid, some "default", pc.2⟩), ?_, pc.2, ?_⟩
    · unfold resolve_peft_config_type
      rw [resolve_aux_all_named env pre _ false [] hpre hpreC]
      simp only [resolve_peft_config_type_aux, hpc, Bool.false_eq_true, if_false]
      rw [show mid ++ post = (mid ++ post) ++ [] by simp,
        resolve_aux_all_named env (mid ++ post) [] true _ ?hn ?hc]
      · simp [resolve_peft_config_type_aux]
      case hn =>
        intro q hq
        rcases List.mem_append.mp hq with hq | hq
        · exact hmid q hq
        · exact hpost q hq
      case hc =>
        intro q hq
        rcases List.mem_append.mp hq with hq | hq
        · exact hmidC q hq
        · exact hpostC q hq
    · exact mem_allTuples_accAfter env (mid ++ post) _ _
        ((mem_allTuples_insertAdapter _ _ _ _).mpr (Or.inl rfl))
  · intro fam₁ fam₂ t₁ t₂ h₁ h₂
    obtain ⟨a₁, n₁, c₁⟩ := t₁
    obtain ⟨a₂, n₂, c₂⟩ := t₂
    simp only [AdaptersTuple.name] at h₁ h₂
    subst h₁
    subst h₂
    simp [transposeBuild, transposeBuildAux, transposeFam, truthyName]

/-- C2 witness: with one named spec first, a null-named LoRA spec is
promoted to `"default"` and resolution succeeds, while appending a second
null-named spec from the IA3 family makes resolution raise. -/
theorem resolve_peft_default_uniqueness_witness :
    resolve_peft_config_type twoFamilyEnv [("p", some "x"), ("a", none), ("b", none)]
      = .error "Only one adapter can be set as default."
    ∧ ∃ r, resolve_peft_config_type twoFamilyEnv [("p", some "x"), ("a", none)] = .ok r
        ∧ ∃ cfg, AdaptersTuple.mk "a" (some "default") cfg ∈ allTuples r :=
  ⟨(resolve_peft_default_uniqueness twoFamilyEnv [("p", some "x")] [] [] "a" "b" true
      (by decide) (by decide) (by decide) (by decide) (by decide)).1,
    (resolve_peft_default_uniqueness twoFamilyEnv [("p", some "x")] [] [] "a" "b" true
      (by decide) (by decide) (by decide) (by decide) (by decide)).2.1
      (by decide) (by decide)⟩

end OpenLLM
